import Mathlib

/-!
Verification of the MockProvider protocol harness
(`internal/providers/testing/provider_mock.go`) against its specification.

The value and schema model embeds the `cty` value system used by the Go
source: values are a tagged union over null, unknown, primitives,
collections and objects; schemas are blocks of attributes plus nested
blocks.  Sequence types (`ValueSeq`, `FieldSeq`, `TyFields`, ...) replace
`List` in recursive positions so that all functions are structurally
recursive and compute inside the kernel.
-/

namespace ProviderMock

mutual

/-- The type system of `cty` values as used by the mock provider:
primitives, collections with an element type, and object types with named
fields. -/
inductive Ty where
  | string
  | number
  | bool
  | list (elem : Ty)
  | map (elem : Ty)
  | set (elem : Ty)
  | object (fields : TyFields)

/-- A sequence of named field types of an object type. -/
inductive TyFields where
  | nil
  | cons (name : String) (ty : Ty) (rest : TyFields)

end

mutual

/-- A `cty.Value`: a tagged union over null, unknown (a first-class
placeholder carrying its type), primitives, ordered lists, string-keyed
maps, sets, and objects.  Numbers are modelled as integers, which is exact
for every number the mock manipulates. -/
inductive Value where
  | null (ty : Ty)
  | unknown (ty : Ty)
  | str (s : String)
  | num (n : Int)
  | bool (b : Bool)
  | list (elem : Ty) (elems : ValueSeq)
  | map (elem : Ty) (elems : FieldSeq)
  | set (elem : Ty) (elems : ValueSeq)
  | object (fields : FieldSeq)

/-- A sequence of values (list/set elements). -/
inductive ValueSeq where
  | nil
  | cons (v : Value) (rest : ValueSeq)

/-- A sequence of named values (map elements / object fields). -/
inductive FieldSeq where
  | nil
  | cons (name : String) (v : Value) (rest : FieldSeq)

end

/-- Looks up a field type by name. -/
def TyFields.lookup : TyFields → String → Option Ty
  | .nil, _ => none
  | .cons n t rest, key => if n = key then some t else rest.lookup key

/-- Looks up a field value by name. -/
def FieldSeq.lookup : FieldSeq → String → Option Value
  | .nil, _ => none
  | .cons n v rest, key => if n = key then some v else rest.lookup key

/-- Fetches the `i`-th element of a value sequence. -/
def ValueSeq.get? : ValueSeq → Nat → Option Value
  | .nil, _ => none
  | .cons v _, 0 => some v
  | .cons _ rest, i + 1 => rest.get? i

mutual

/-- `cty.Value.Type()`: the type of a value. -/
def Value.ty : Value → Ty
  | .null t => t
  | .unknown t => t
  | .str _ => .string
  | .num _ => .number
  | .bool _ => .bool
  | .list e _ => .list e
  | .map e _ => .map e
  | .set e _ => .set e
  | .object fs => .object (FieldSeq.tys fs)

/-- The field types of an object value's fields. -/
def FieldSeq.tys : FieldSeq → TyFields
  | .nil => .nil
  | .cons n v rest => .cons n v.ty (FieldSeq.tys rest)

end

/-- `cty.Value.IsNull()`: true exactly for the null constructor. -/
def Value.isNull : Value → Bool
  | .null _ => true
  | _ => false

/-- `cty.Value.IsKnown()`: false exactly for the (shallow) unknown
constructor; a known collection may still contain unknown elements. -/
def Value.isKnown : Value → Bool
  | .unknown _ => false
  | _ => true

mutual

/-- True when an unknown value occurs anywhere in the structure of a
value. -/
def Value.hasUnknown : Value → Bool
  | .null _ => false
  | .unknown _ => true
  | .str _ => false
  | .num _ => false
  | .bool _ => false
  | .list _ els => ValueSeq.hasUnknown els
  | .map _ els => FieldSeq.hasUnknown els
  | .set _ els => ValueSeq.hasUnknown els
  | .object fs => FieldSeq.hasUnknown fs

/-- Any element contains an unknown value. -/
def ValueSeq.hasUnknown : ValueSeq → Bool
  | .nil => false
  | .cons v rest => Value.hasUnknown v || ValueSeq.hasUnknown rest

/-- Any field value contains an unknown value. -/
def FieldSeq.hasUnknown : FieldSeq → Bool
  | .nil => false
  | .cons _ v rest => Value.hasUnknown v || FieldSeq.hasUnknown rest

end

/-- One step of a `cty.Path`: attribute access or collection indexing. -/
inductive PathStep where
  | getAttr (name : String)
  | index (key : Value)

/-- A `cty.Path`: a sequence of steps from the root of a value. -/
abbrev Path := List PathStep

/-- `cty.Path.Apply`: traverses a value along a path.  Attribute steps
descend into object fields (an unknown object yields an unknown of the
field's type); index steps descend into list or map elements; null values
and shape mismatches are errors. -/
def Path.apply : Path → Value → Except String Value
  | [], v => .ok v
  | .getAttr name :: rest, v =>
    match v with
    | .null _ => .error ("cannot access attribute " ++ name ++ " on a null value")
    | .unknown t =>
      match t with
      | .object fts =>
        match fts.lookup name with
        | some t' => Path.apply rest (.unknown t')
        | none => .error ("object has no attribute " ++ name)
      | _ => .error ("cannot access attribute " ++ name ++ " on this value")
    | .object fs =>
      match fs.lookup name with
      | some v' => Path.apply rest v'
      | none => .error ("object has no attribute " ++ name)
    | _ => .error ("cannot access attribute " ++ name ++ " on this value")
  | .index key :: rest, v =>
    match v with
    | .null _ => .error "cannot index a null value"
    | .unknown t =>
      match t with
      | .list e => Path.apply rest (.unknown e)
      | .map e => Path.apply rest (.unknown e)
      | _ => .error "cannot index this value"
    | .list _ els =>
      match key with
      | .num i =>
        if i < 0 then .error "index out of range"
        else
          match els.get? i.toNat with
          | some v' => Path.apply rest v'
          | none => .error "index out of range"
      | _ => .error "invalid index type for a list"
    | .map _ els =>
      match key with
      | .str s =>
        match els.lookup s with
        | some v' => Path.apply rest v'
        | none => .error ("map has no element " ++ s)
      | _ => .error "invalid index type for a map"
    | _ => .error "cannot index this value"

mutual

/-- `cty.Transform`: a depth-first post-order structural rewrite.  The
elements of a known collection are transformed first (with the element's
path appended), then the visitor is applied to the rebuilt value; null,
unknown and primitive values are passed to the visitor directly. -/
def Value.transform (f : Path → Value → Value) (p : Path) : Value → Value
  | .list e els => f p (.list e (ValueSeq.transformIdx f p 0 els))
  | .map e els => f p (.map e (FieldSeq.transformKeyed f p els))
  | .set e els => f p (.set e (ValueSeq.transformSet f p els))
  | .object fs => f p (.object (FieldSeq.transformAttrs f p fs))
  | v => f p v

/-- Transforms list elements, indexing the path by element position. -/
def ValueSeq.transformIdx (f : Path → Value → Value) (p : Path) (i : Nat) :
    ValueSeq → ValueSeq
  | .nil => .nil
  | .cons v rest =>
    .cons (Value.transform f (p ++ [.index (.num (Int.ofNat i))]) v)
      (ValueSeq.transformIdx f p (i + 1) rest)

/-- Transforms map elements, indexing the path by element key. -/
def FieldSeq.transformKeyed (f : Path → Value → Value) (p : Path) :
    FieldSeq → FieldSeq
  | .nil => .nil
  | .cons n v rest =>
    .cons n (Value.transform f (p ++ [.index (.str n)]) v)
      (FieldSeq.transformKeyed f p rest)

/-- Transforms set elements, indexing the path by the element value. -/
def ValueSeq.transformSet (f : Path → Value → Value) (p : Path) :
    ValueSeq → ValueSeq
  | .nil => .nil
  | .cons v rest =>
    .cons (Value.transform f (p ++ [.index v]) v)
      (ValueSeq.transformSet f p rest)

/-- Transforms object fields, extending the path by the attribute name. -/
def FieldSeq.transformAttrs (f : Path → Value → Value) (p : Path) :
    FieldSeq → FieldSeq
  | .nil => .nil
  | .cons n v rest =>
    .cons n (Value.transform f (p ++ [.getAttr n]) v)
      (FieldSeq.transformAttrs f p rest)

end

/-- An attribute schema: its type and the required/optional/computed
flags (`configschema.Attribute`). -/
structure Attribute where
  type : Ty
  required : Bool := false
  optional : Bool := false
  computed : Bool := false

/-- The nesting mode of a nested block (`configschema.NestingMode`). -/
inductive Nesting where
  | single
  | group
  | list
  | set
  | map

mutual

/-- A schema block (`configschema.Block`): named attributes plus nested
named blocks (recursive). -/
inductive Block where
  | mk (attributes : List (String × Attribute)) (blockTypes : BlockSeq)

/-- A sequence of named nested blocks with their nesting modes. -/
inductive BlockSeq where
  | nil
  | cons (name : String) (nesting : Nesting) (block : Block) (rest : BlockSeq)

end

/-- The attributes of a block. -/
def Block.attributes : Block → List (String × Attribute)
  | .mk attrs _ => attrs

/-- The nested block types of a block. -/
def Block.blockTypes : Block → BlockSeq
  | .mk _ bs => bs

/-- Looks up a nested block by name. -/
def BlockSeq.lookup : BlockSeq → String → Option (Nesting × Block)
  | .nil, _ => none
  | .cons n m b rest, key => if n = key then some (m, b) else rest.lookup key

/-- Appends two field-type sequences. -/
def TyFields.append : TyFields → TyFields → TyFields
  | .nil, ts => ts
  | .cons n t rest, ts => .cons n t (rest.append ts)

/-- The field types contributed by a block's own attributes. -/
def attributeTys : List (String × Attribute) → TyFields
  | [] => .nil
  | (n, a) :: rest => .cons n a.type (attributeTys rest)

/-- Wraps a nested block's object type according to its nesting mode. -/
def Nesting.wrap : Nesting → Ty → Ty
  | .single, t => t
  | .group, t => t
  | .list, t => .list t
  | .set, t => .set t
  | .map, t => .map t

mutual

/-- Modelled from the spec: `configschema.Block.ImpliedType` (the source
file is not part of this repository snapshot) — the deterministic, total
derivation of the full object type of a block: one field per declared
attribute, plus one field per nested block wrapped according to its
nesting mode. -/
def Block.impliedType : Block → Ty
  | .mk attrs blocks =>
    .object ((attributeTys attrs).append (BlockSeq.impliedTys blocks))

/-- The field types contributed by the nested blocks. -/
def BlockSeq.impliedTys : BlockSeq → TyFields
  | .nil => .nil
  | .cons n mode b rest => .cons n (mode.wrap b.impliedType) (BlockSeq.impliedTys rest)

end

/-- Modelled from the spec: `configschema.Block.AttributeByPath` (the
source file is not part of this repository snapshot) — resolves a value
path to the declared attribute it names, skipping collection index steps
and descending through nested block types; a path that does not name a
declared attribute (an intermediate container path) resolves to none. -/
def Block.attributeByPath : Block → Path → Option Attribute
  | _, [] => none
  | b, .index _ :: rest => b.attributeByPath rest
  | b, .getAttr name :: rest =>
    match b.attributes.lookup name with
    | some attr => if rest.isEmpty then some attr else none
    | none =>
      match b.blockTypes.lookup name with
      | some (_, nested) => if rest.isEmpty then none else nested.attributeByPath rest
      | none => none

mutual

/-- Boolean equality of types. -/
def Ty.beq : Ty → Ty → Bool
  | .string, .string => true
  | .number, .number => true
  | .bool, .bool => true
  | .list a, .list b => a.beq b
  | .map a, .map b => a.beq b
  | .set a, .set b => a.beq b
  | .object fa, .object fb => TyFields.beq fa fb
  | _, _ => false

/-- Boolean equality of field-type sequences. -/
def TyFields.beq : TyFields → TyFields → Bool
  | .nil, .nil => true
  | .cons n t rest, .cons n' t' rest' => n = n' && t.beq t' && TyFields.beq rest rest'
  | _, _ => false

end

/-- Modelled from the spec: `configschema.Block.CoerceValue` (the source
file is not part of this repository snapshot) — adjusts a value to
conform to the block's implied type: the value must be an object; every
attribute demanded by the implied type that is null or absent is filled
with a null of its type without error, a present attribute whose type
does not match is a coercion error. -/
def Block.coerceValue (b : Block) (v : Value) : Except String Value :=
  match b.impliedType with
  | .object fts =>
    match v with
    | .object fs =>
      (coerceFields fts fs).map Value.object
    | .null _ => .error "can not coerce a null value to an object type"
    | .unknown _ => .error "can not coerce an unknown value to an object type"
    | _ => .error "incorrect type, an object is required"
  | _ => .error "invalid implied type"
where
  /-- Fills each demanded field from the given object fields, or with a
  null of the demanded type. -/
  coerceFields : TyFields → FieldSeq → Except String FieldSeq
    | .nil, _ => .ok .nil
    | .cons n t rest, fs => do
      let tail ← coerceFields rest fs
      match fs.lookup n with
      | none => .ok (.cons n (.null t) tail)
      | some fv =>
        if fv.isNull || !fv.isKnown || (fv.ty.beq t) then
          .ok (.cons n fv tail)
        else
          .error ("unsuitable value for attribute " ++ n)

/-- Every declared field name is present among the object's fields. -/
def declaredCovered : TyFields → FieldSeq → Bool
  | .nil, _ => true
  | .cons n _ rest, fs => (fs.lookup n).isSome && declaredCovered rest fs

mutual

/-- Modelled from the spec: the strict type-conformance check that the
wire encoding (`msgpack.Marshal` against an implied type) performs — the
value's shape must conform to the given type; null and unknown conform to
any type, collection elements are checked against the element type, and
an object must carry exactly the declared fields. -/
def encodeCheck (v : Value) (t : Ty) : Except String Unit :=
  match v, t with
  | .null _, _ => .ok ()
  | .unknown _, _ => .ok ()
  | .str _, .string => .ok ()
  | .num _, .number => .ok ()
  | .bool _, .bool => .ok ()
  | .list _ els, .list e => encodeCheckSeq els e
  | .set _ els, .set e => encodeCheckSeq els e
  | .map _ els, .map e => encodeCheckFields els e
  | .object fs, .object fts =>
    if declaredCovered fts fs then encodeCheckObj fs fts
    else .error "missing required attribute"
  | _, _ => .error "type mismatch in encoding"

/-- Checks every element of a sequence against the element type. -/
def encodeCheckSeq (vs : ValueSeq) (e : Ty) : Except String Unit :=
  match vs with
  | .nil => .ok ()
  | .cons v rest => do
    encodeCheck v e
    encodeCheckSeq rest e

/-- Checks every map element against the element type. -/
def encodeCheckFields (fs : FieldSeq) (e : Ty) : Except String Unit :=
  match fs with
  | .nil => .ok ()
  | .cons _ v rest => do
    encodeCheck v e
    encodeCheckFields rest e

/-- Checks every object field against its declared type; a field that is
not declared is an error. -/
def encodeCheckObj (fs : FieldSeq) (fts : TyFields) : Except String Unit :=
  match fs with
  | .nil => .ok ()
  | .cons n v rest =>
    match fts.lookup n with
    | some t => do
      encodeCheck v t
      encodeCheckObj rest fts
    | none => .error ("unsupported attribute " ++ n)

end

/-- The numeric value of a decimal digit character. -/
def digitVal (c : Char) : Option Nat :=
  if c = '0' then some 0
  else if c = '1' then some 1
  else if c = '2' then some 2
  else if c = '3' then some 3
  else if c = '4' then some 4
  else if c = '5' then some 5
  else if c = '6' then some 6
  else if c = '7' then some 7
  else if c = '8' then some 8
  else if c = '9' then some 9
  else none

/-- Parses a run of decimal digits, rejecting other characters. -/
def parseNatFrom : List Char → Nat → Option Nat
  | [], acc => some acc
  | c :: rest, acc =>
    match digitVal c with
    | some d => parseNatFrom rest (acc * 10 + d)
    | none => none

/-- Parses a decimal natural number (`String.toNat?`). -/
def strToNat (s : String) : Option Nat :=
  match s.data with
  | [] => none
  | cs => parseNatFrom cs 0

/-- Parses a decimal integer with an optional sign (`String.toInt?`). -/
def strToInt (s : String) : Option Int :=
  match s.data with
  | '-' :: cs =>
    if cs = [] then none
    else (parseNatFrom cs 0).map fun n => -(n : Int)
  | [] => none
  | cs => (parseNatFrom cs 0).map Int.ofNat

/-- Decodes one flatmap primitive cell at an element type. -/
def flatmapPrim (e : Ty) (s : String) : Except String Value :=
  match e with
  | .string => .ok (.str s)
  | .number =>
    match strToInt s with
    | some n => .ok (.num n)
    | none => .error ("unparseable number " ++ s)
  | .bool =>
    if s = "true" then .ok (.bool true)
    else if s = "false" then .ok (.bool false)
    else .error ("unparseable bool " ++ s)
  | _ => .error "unsupported flatmap element type"

/-- The sub-keys of `name` in a flatmap: entries whose key is
`name ++ "." ++ suffix`, excluding the count markers. -/
def flatmapSubKeys (m : List (String × String)) (name : String) :
    List (String × String) :=
  m.filterMap fun kv =>
    let base := name ++ "."
    if kv.1.take base.length = base then
      let suffix := kv.1.drop base.length
      if suffix = "%" || suffix = "#" then none else some (suffix, kv.2)
    else none

/-- Decodes the collected map elements of a flatmap map attribute. -/
def flatmapMapElems (e : Ty) : List (String × String) → Except String FieldSeq
  | [] => .ok .nil
  | (k, s) :: rest => do
    let v ← flatmapPrim e s
    let tail ← flatmapMapElems e rest
    .ok (.cons k v tail)

/-- Decodes the indexed list elements `name.i` for `i` below the declared
count. -/
def flatmapListElems (m : List (String × String)) (name : String) (e : Ty) :
    (i : Nat) → (remaining : Nat) → Except String ValueSeq
  | _, 0 => .ok .nil
  | i, remaining + 1 => do
    match m.lookup (name ++ "." ++ toString i) with
    | none => .error ("missing list element " ++ name ++ "." ++ toString i)
    | some s =>
      let v ← flatmapPrim e s
      let tail ← flatmapListElems m name e (i + 1) remaining
      .ok (.cons v tail)

/-- Modelled from the spec: `hcl2shim.HCL2ValueFromFlatmap` (the source
file is not part of this repository snapshot) — interprets a flat
string-keyed map against the implied object type, reconstructing nested
structure positionally from indexed key suffixes: `name` holds a
primitive attribute, `name.%`/`name.k` hold the count and elements of a
map attribute, `name.#`/`name.i` those of a list or set attribute; an
absent attribute decodes to null and a structural mismatch is a decode
error. -/
def flatmapDecode (m : List (String × String)) (t : Ty) : Except String Value :=
  match t with
  | .object fts => (flatmapFields m fts).map Value.object
  | _ => .error "flatmap decoding requires an object type"
where
  /-- Decodes each declared attribute from its flatmap keys. -/
  flatmapFields (m : List (String × String)) :
      TyFields → Except String FieldSeq
    | .nil => .ok .nil
    | .cons name ft rest => do
      let tail ← flatmapFields m rest
      match ft with
      | .string | .number | .bool =>
        match m.lookup name with
        | none => .ok (.cons name (.null ft) tail)
        | some s =>
          let v ← flatmapPrim ft s
          .ok (.cons name v tail)
      | .map e =>
        match m.lookup (name ++ ".%") with
        | none => .ok (.cons name (.null (.map e)) tail)
        | some cnt =>
          match strToNat cnt with
          | none => .error ("unparseable count " ++ cnt)
          | some n =>
            let elems := flatmapSubKeys m name
            if elems.length = n then do
              let fs ← flatmapMapElems e elems
              .ok (.cons name (.map e fs) tail)
            else .error ("corrupt count for " ++ name)
      | .list e =>
        match m.lookup (name ++ ".#") with
        | none => .ok (.cons name (.null (.list e)) tail)
        | some cnt =>
          match strToNat cnt with
          | none => .error ("unparseable count " ++ cnt)
          | some n => do
            let vs ← flatmapListElems m name e 0 n
            .ok (.cons name (.list e vs) tail)
      | .set e =>
        match m.lookup (name ++ ".#") with
        | none => .ok (.cons name (.null (.set e)) tail)
        | some cnt =>
          match strToNat cnt with
          | none => .error ("unparseable count " ++ cnt)
          | some n => do
            let vs ← flatmapListElems m name e 0 n
            .ok (.cons name (.set e vs) tail)
      | _ => .error ("unsupported flatmap attribute type for " ++ name)

mutual

/-- A parsed JSON document (the raw JSON state after lexical parsing);
numbers are modelled as integers, which covers the states exercised
here. -/
inductive Json where
  | null
  | bool (b : Bool)
  | num (n : Int)
  | str (s : String)
  | arr (elems : JsonSeq)
  | obj (fields : JsonFields)

/-- A sequence of JSON array elements. -/
inductive JsonSeq where
  | nil
  | cons (j : Json) (rest : JsonSeq)

/-- A sequence of JSON object members. -/
inductive JsonFields where
  | nil
  | cons (name : String) (j : Json) (rest : JsonFields)

end

/-- Appends two field sequences. -/
def FieldSeq.append : FieldSeq → FieldSeq → FieldSeq
  | .nil, fs => fs
  | .cons n v rest, fs => .cons n v (rest.append fs)

/-- Appends a null field for every declared field missing from the
decoded object fields. -/
def fillMissing (fts : TyFields) (decoded : FieldSeq) : FieldSeq :=
  match fts with
  | .nil => decoded
  | .cons n t rest =>
    match decoded.lookup n with
    | some _ => fillMissing rest decoded
    | none => fillMissing rest (decoded.append (.cons n (.null t) .nil))

mutual

/-- Modelled from the spec: `ctyjson.Unmarshal` — parses a JSON document
directly against the implied type using the type's own decoding rules:
JSON null is a null of the demanded type, primitives must match the
demanded primitive type, arrays decode lists and sets, objects decode
maps and object types with absent keys as null and undeclared keys as a
decode error. -/
def jsonDecode (j : Json) (t : Ty) : Except String Value :=
  match j, t with
  | .null, _ => .ok (.null t)
  | .bool b, .bool => .ok (.bool b)
  | .num n, .number => .ok (.num n)
  | .str s, .string => .ok (.str s)
  | .arr els, .list e => (jsonDecodeSeq els e).map (Value.list e)
  | .arr els, .set e => (jsonDecodeSeq els e).map (Value.set e)
  | .obj fs, .map e => (jsonDecodeMap fs e).map (Value.map e)
  | .obj fs, .object fts => do
    let decoded ← jsonDecodeObj fs fts
    .ok (.object (fillMissing fts decoded))
  | _, _ => .error "incorrect JSON value type"

/-- Decodes each array element at the element type. -/
def jsonDecodeSeq (els : JsonSeq) (e : Ty) : Except String ValueSeq :=
  match els with
  | .nil => .ok .nil
  | .cons j rest => do
    let v ← jsonDecode j e
    let tail ← jsonDecodeSeq rest e
    .ok (.cons v tail)

/-- Decodes each object member at the map element type. -/
def jsonDecodeMap (fs : JsonFields) (e : Ty) : Except String FieldSeq :=
  match fs with
  | .nil => .ok .nil
  | .cons n j rest => do
    let v ← jsonDecode j e
    let tail ← jsonDecodeMap rest e
    .ok (.cons n v tail)

/-- Decodes each object member at its declared field type; an undeclared
member is a decode error. -/
def jsonDecodeObj (fs : JsonFields) (fts : TyFields) : Except String FieldSeq :=
  match fs with
  | .nil => .ok .nil
  | .cons n j rest =>
    match fts.lookup n with
    | some t => do
      let v ← jsonDecode j t
      let tail ← jsonDecodeObj rest fts
      .ok (.cons n v tail)
    | none => .error ("unsupported attribute " ++ n)

end

/-- An error diagnostic appended by the mock, tagged by the `fmt.Errorf`
call site that produced it: the ordering-violation error names the
violating operation and the resource type name, the missing-schema error
names the type name, and `err` carries any other error message appended
to the diagnostics. -/
inductive Diag where
  | configureNotCalled (op : String) (typeName : String)
  | noSchema (typeName : String)
  | err (msg : String)
deriving DecidableEq, Repr

/-- True when the diagnostics contain an ordering-violation
("Configure not called") error. -/
def hasConfigureNotCalled (ds : List Diag) : Bool :=
  ds.any fun d =>
    match d with
    | .configureNotCalled _ _ => true
    | _ => false

/-- `providers.Schema`: a schema version plus the body block. -/
structure Schema where
  version : Int := 0
  block : Block

/-- `providers.GetProviderSchemaResponse` (the fields the mock uses). -/
structure GetProviderSchemaResponse where
  provider : Schema := { block := .mk [] .nil }
  dataSources : List (String × Schema) := []
  resourceTypes : List (String × Schema) := []

/-- `providers.ValidateResourceConfigRequest`. -/
structure ValidateResourceConfigRequest where
  typeName : String
  config : Value

/-- `providers.ValidateResourceConfigResponse`. -/
structure ValidateResourceConfigResponse where
  diagnostics : List Diag := []
deriving DecidableEq, Repr

/-- `providers.UpgradeResourceStateRequest`: the raw state is either a
flat string map, a parsed JSON document (`none` models empty raw JSON
bytes), or neither. -/
structure UpgradeResourceStateRequest where
  typeName : String
  rawStateFlatmap : Option (List (String × String)) := none
  rawStateJSON : Option Json := none

/-- `providers.UpgradeResourceStateResponse`; `upgradedState = none`
models the zero `cty.Value` of a response whose state was never set. -/
structure UpgradeResourceStateResponse where
  upgradedState : Option Value := none
  diagnostics : List Diag := []

/-- `providers.ConfigureProviderRequest`. -/
structure ConfigureProviderRequest where
  config : Value

/-- `providers.ConfigureProviderResponse`. -/
structure ConfigureProviderResponse where
  diagnostics : List Diag := []
deriving DecidableEq, Repr

/-- `providers.ReadResourceRequest`; `priv` models the opaque
provider-private byte blob `Private`. -/
structure ReadResourceRequest where
  typeName : String
  priorState : Value
  priv : List Nat := []

/-- `providers.ReadResourceResponse`. -/
structure ReadResourceResponse where
  newState : Option Value := none
  priv : List Nat := []
  diagnostics : List Diag := []

/-- `providers.PlanResourceChangeRequest`. -/
structure PlanResourceChangeRequest where
  typeName : String
  priorState : Value
  proposedNewState : Value
  config : Value
  priorPrivate : List Nat := []

/-- `providers.PlanResourceChangeResponse`. -/
structure PlanResourceChangeResponse where
  plannedState : Option Value := none
  plannedPrivate : List Nat := []
  diagnostics : List Diag := []

/-- `providers.ApplyResourceChangeRequest`. -/
structure ApplyResourceChangeRequest where
  typeName : String
  priorState : Value
  plannedState : Value
  config : Value
  plannedPrivate : List Nat := []

/-- `providers.ApplyResourceChangeResponse`. -/
structure ApplyResourceChangeResponse where
  newState : Option Value := none
  priv : List Nat := []
  diagnostics : List Diag := []

/-- `providers.ImportedResource`. -/
structure ImportedResource where
  typeName : String
  state : Value
  priv : List Nat := []

/-- `providers.ImportResourceStateRequest`. -/
structure ImportResourceStateRequest where
  typeName : String
  id : String

/-- `providers.ImportResourceStateResponse`. -/
structure ImportResourceStateResponse where
  importedResources : List ImportedResource := []
  diagnostics : List Diag := []

/-- `providers.ReadDataSourceRequest`. -/
structure ReadDataSourceRequest where
  typeName : String
  config : Value

/-- `providers.ReadDataSourceResponse`. -/
structure ReadDataSourceResponse where
  state : Option Value := none
  diagnostics : List Diag := []

/-- `providers.PlanActionRequest` (the fields the mock uses). -/
structure PlanActionRequest where
  typeName : String

/-- `providers.PlanActionResponse`. -/
structure PlanActionResponse where
  diagnostics : List Diag := []
deriving DecidableEq, Repr

/-- `providers.ApplyActionRequest` (the fields the mock uses). -/
structure ApplyActionRequest where
  typeName : String

/-- `providers.ApplyActionResponse`. -/
structure ApplyActionResponse where
  diagnostics : List Diag := []
deriving DecidableEq, Repr

/-- The `MockProvider` test double: per-operation call-log flags,
recorded requests, pluggable override functions and canned responses,
exactly as in the Go struct (for the operations embedded here). -/
structure MockProvider where
  getProviderSchemaCalled : Bool := false
  getProviderSchemaResponse : Option GetProviderSchemaResponse := none
  validateResourceConfigCalled : Bool := false
  validateResourceConfigRequest : Option ValidateResourceConfigRequest := none
  validateResourceConfigFn :
    Option (ValidateResourceConfigRequest → ValidateResourceConfigResponse) := none
  validateResourceConfigResponse : Option ValidateResourceConfigResponse := none
  upgradeResourceStateCalled : Bool := false
  upgradeResourceStateRequest : Option UpgradeResourceStateRequest := none
  upgradeResourceStateFn :
    Option (UpgradeResourceStateRequest → UpgradeResourceStateResponse) := none
  upgradeResourceStateResponse : Option UpgradeResourceStateResponse := none
  configureProviderCalled : Bool := false
  configureProviderRequest : Option ConfigureProviderRequest := none
  configureProviderFn :
    Option (ConfigureProviderRequest → ConfigureProviderResponse) := none
  configureProviderResponse : Option ConfigureProviderResponse := none
  readResourceCalled : Bool := false
  readResourceRequest : Option ReadResourceRequest := none
  readResourceFn : Option (ReadResourceRequest → ReadResourceResponse) := none
  readResourceResponse : Option ReadResourceResponse := none
  planResourceChangeCalled : Bool := false
  planResourceChangeRequest : Option PlanResourceChangeRequest := none
  planResourceChangeFn :
    Option (PlanResourceChangeRequest → PlanResourceChangeResponse) := none
  planResourceChangeResponse : Option PlanResourceChangeResponse := none
  applyResourceChangeCalled : Bool := false
  applyResourceChangeRequest : Option ApplyResourceChangeRequest := none
  applyResourceChangeFn :
    Option (ApplyResourceChangeRequest → ApplyResourceChangeResponse) := none
  applyResourceChangeResponse : Option ApplyResourceChangeResponse := none
  importResourceStateCalled : Bool := false
  importResourceStateRequest : Option ImportResourceStateRequest := none
  importResourceStateFn :
    Option (ImportResourceStateRequest → ImportResourceStateResponse) := none
  importResourceStateResponse : Option ImportResourceStateResponse := none
  readDataSourceCalled : Bool := false
  readDataSourceRequest : Option ReadDataSourceRequest := none
  readDataSourceFn : Option (ReadDataSourceRequest → ReadDataSourceResponse) := none
  readDataSourceResponse : Option ReadDataSourceResponse := none
  planActionCalled : Bool := false
  planActionRequest : Option PlanActionRequest := none
  planActionFn : Option (PlanActionRequest → PlanActionResponse) := none
  planActionResponse : Option PlanActionResponse := none
  applyActionCalled : Bool := false
  applyActionRequest : Option ApplyActionRequest := none
  applyActionFn : Option (ApplyActionRequest → ApplyActionResponse) := none
  applyActionResponse : Option ApplyActionResponse := none

/-- The visitor of the default plan transform: known values at declared
attribute paths whose config value can be fetched are replaced by unknown
when a computed-only attribute is still null, or when an optional+computed
attribute is non-null while its corresponding config value is null; every
other value is returned unchanged.  The Go visitor never returns an
error, so the source's `cty.Transform` error branch is unreachable and
the transform is total here. -/
def planDefaultVisitor (schema : Block) (config : Value) (path : Path)
    (v : Value) : Value :=
  if !v.isKnown then v
  else
    match schema.attributeByPath path with
    | none => v
    | some attrSchema =>
      match Path.apply path config with
      | .error _ => v
      | .ok configVal =>
        if attrSchema.computed && !attrSchema.optional && v.isNull then
          .unknown v.ty
        else if attrSchema.computed && attrSchema.optional && !v.isNull
            && configVal.isNull then
          .unknown v.ty
        else v

/-- The visitor of the default apply transform: every unknown value is
replaced by a type-appropriate zero value — empty string, zero, false,
empty map, empty list — and null for any other type; known values are
returned unchanged. -/
def applyDefaultVisitor (_path : Path) (v : Value) : Value :=
  if !v.isKnown then
    match v.ty with
    | .string => .str ""
    | .number => .num 0
    | .bool => .bool false
    | .map e => .map e .nil
    | .list e => .list e .nil
    | t => .null t
  else v

/-- `MockProvider.getProviderSchema` (lock-free inner helper): the canned
schema response, or an empty schema set. -/
def MockProvider.getProviderSchema (p : MockProvider) : GetProviderSchemaResponse :=
  match p.getProviderSchemaResponse with
  | some resp => resp
  | none => { provider := { block := .mk [] .nil }, dataSources := [], resourceTypes := [] }

/-- `MockProvider.GetProviderSchema`. -/
def MockProvider.GetProviderSchema (p : MockProvider) :
    GetProviderSchemaResponse × MockProvider :=
  let p := { p with getProviderSchemaCalled := true }
  (p.getProviderSchema, p)

/-- `MockProvider.ValidateResourceConfig`: records the call, rejects an
unregistered type name, replicates the wire-encoding type-conformance
check, then dispatches to the override function, the canned response, or
an empty response. -/
def MockProvider.ValidateResourceConfig (p : MockProvider)
    (r : ValidateResourceConfigRequest) :
    ValidateResourceConfigResponse × MockProvider :=
  let p := { p with validateResourceConfigCalled := true,
                    validateResourceConfigRequest := some r }
  match p.getProviderSchema.resourceTypes.lookup r.typeName with
  | none => ({ diagnostics := [.noSchema r.typeName] }, p)
  | some resourceSchema =>
    match encodeCheck r.config resourceSchema.block.impliedType with
    | .error e => ({ diagnostics := [.err e] }, p)
    | .ok _ =>
      match p.validateResourceConfigFn with
      | some f => (f r, p)
      | none =>
        match p.validateResourceConfigResponse with
        | some resp => (resp, p)
        | none => ({}, p)

/-- `MockProvider.UpgradeResourceState`: gated on a prior
`ConfigureProvider` call and on a registered schema (both checked before
the call is recorded), then dispatches to the override function, the
canned response, or the default decoding of the flatmap or JSON raw
state, surfacing decode failures as diagnostics. -/
def MockProvider.UpgradeResourceState (p : MockProvider)
    (r : UpgradeResourceStateRequest) :
    UpgradeResourceStateResponse × MockProvider :=
  if !p.configureProviderCalled then
    ({ diagnostics := [.configureNotCalled "UpgradeResourceState" r.typeName] }, p)
  else
    match p.getProviderSchema.resourceTypes.lookup r.typeName with
    | none => ({ diagnostics := [.noSchema r.typeName] }, p)
    | some schema =>
      let schemaType := schema.block.impliedType
      let p := { p with upgradeResourceStateCalled := true,
                        upgradeResourceStateRequest := some r }
      match p.upgradeResourceStateFn with
      | some f => (f r, p)
      | none =>
        match p.upgradeResourceStateResponse with
        | some resp => (resp, p)
        | none =>
          match r.rawStateFlatmap with
          | some m =>
            match flatmapDecode m schemaType with
            | .error e => ({ diagnostics := [.err e] }, p)
            | .ok v => ({ upgradedState := some v }, p)
          | none =>
            match r.rawStateJSON with
            | some j =>
              match jsonDecode j schemaType with
              | .error e => ({ diagnostics := [.err e] }, p)
              | .ok v => ({ upgradedState := some v }, p)
            | none => ({}, p)

/-- `MockProvider.ConfigureProvider`: records the call (opening the
ordering gate), then dispatches to the override function, the canned
response, or an empty response. -/
def MockProvider.ConfigureProvider (p : MockProvider)
    (r : ConfigureProviderRequest) :
    ConfigureProviderResponse × MockProvider :=
  let p := { p with configureProviderCalled := true,
                    configureProviderRequest := some r }
  match p.configureProviderFn with
  | some f => (f r, p)
  | none =>
    match p.configureProviderResponse with
    | some resp => (resp, p)
    | none => ({}, p)

/-- `MockProvider.ReadResource`: records the call, enforces the configure
gate, then dispatches to the override function, the canned response
(whose state is coerced to the schema shape), or the built-in identity
refresh that echoes the prior state and private blob. -/
def MockProvider.ReadResource (p : MockProvider) (r : ReadResourceRequest) :
    ReadResourceResponse × MockProvider :=
  let p := { p with readResourceCalled := true, readResourceRequest := some r }
  if !p.configureProviderCalled then
    ({ diagnostics := [.configureNotCalled "ReadResource" r.typeName] }, p)
  else
    match p.readResourceFn with
    | some f => (f r, p)
    | none =>
      match p.readResourceResponse with
      | some resp =>
        match p.getProviderSchema.resourceTypes.lookup r.typeName with
        | none =>
          ({ resp with diagnostics := resp.diagnostics ++ [.noSchema r.typeName] }, p)
        | some schema =>
          match resp.newState with
          | some s =>
            match schema.block.coerceValue s with
            | .ok coerced => ({ resp with newState := some coerced }, p)
            | .error e =>
              ({ resp with newState := some (.unknown schema.block.impliedType),
                           diagnostics := resp.diagnostics ++ [.err e] }, p)
          | none =>
            ({ resp with newState := some (.unknown schema.block.impliedType),
                         diagnostics :=
                           resp.diagnostics ++ [.err "coercing a nil value"] }, p)
      | none => ({ newState := some r.priorState, priv := r.priv }, p)

/-- `MockProvider.PlanResourceChange`: enforces the configure gate before
recording the call, dispatches to the override function or the canned
response, answers a destroy plan (null proposed state) with a null plan
carrying the prior private blob, and otherwise runs the default plan
transform over the proposed state against the registered schema. -/
def MockProvider.PlanResourceChange (p : MockProvider)
    (r : PlanResourceChangeRequest) :
    PlanResourceChangeResponse × MockProvider :=
  if !p.configureProviderCalled then
    ({ diagnostics := [.configureNotCalled "PlanResourceChange" r.typeName] }, p)
  else
    let p := { p with planResourceChangeCalled := true,
                      planResourceChangeRequest := some r }
    match p.planResourceChangeFn with
    | some f => (f r, p)
    | none =>
      match p.planResourceChangeResponse with
      | some resp => (resp, p)
      | none =>
        if r.proposedNewState.isNull then
          ({ plannedState := some r.proposedNewState,
             plannedPrivate := r.priorPrivate }, p)
        else
          match p.getProviderSchema.resourceTypes.lookup r.typeName with
          | none => ({ diagnostics := [.noSchema r.typeName] }, p)
          | some schema =>
            let val := Value.transform
              (planDefaultVisitor schema.block r.config) [] r.proposedNewState
            ({ plannedState := some val, plannedPrivate := r.priorPrivate }, p)

/-- `MockProvider.ApplyResourceChange`: records the call, enforces the
configure gate, dispatches to the override function or the canned
response, answers a destroy apply (null planned state) with that null
state, and otherwise zeroes every unknown in the planned state and echoes
the planned private blob. -/
def MockProvider.ApplyResourceChange (p : MockProvider)
    (r : ApplyResourceChangeRequest) :
    ApplyResourceChangeResponse × MockProvider :=
  let p := { p with applyResourceChangeCalled := true,
                    applyResourceChangeRequest := some r }
  if !p.configureProviderCalled then
    ({ diagnostics := [.configureNotCalled "ApplyResourceChange" r.typeName] }, p)
  else
    match p.applyResourceChangeFn with
    | some f => (f r, p)
    | none =>
      match p.applyResourceChangeResponse with
      | some resp => (resp, p)
      | none =>
        if r.plannedState.isNull then
          ({ newState := some r.plannedState }, p)
        else
          let val := Value.transform applyDefaultVisitor [] r.plannedState
          ({ newState := some val, priv := r.plannedPrivate }, p)

/-- Coerces each canned imported resource's state to its own type's
schema, stopping at the first missing schema or coercion failure. -/
def coerceImported (schemas : List (String × Schema)) :
    List ImportedResource → Except Diag (List ImportedResource)
  | [] => .ok []
  | res :: rest =>
    match schemas.lookup res.typeName with
    | none => .error (.noSchema res.typeName)
    | some schema =>
      match schema.block.coerceValue res.state with
      | .error e => .error (.err e)
      | .ok coerced =>
        (coerceImported schemas rest).map fun tail =>
          { res with state := coerced } :: tail

/-- `MockProvider.ImportResourceState`: enforces the configure gate
before recording the call, then dispatches to the override function or
the canned response, coercing each canned imported state to its own
type's schema. -/
def MockProvider.ImportResourceState (p : MockProvider)
    (r : ImportResourceStateRequest) :
    ImportResourceStateResponse × MockProvider :=
  if !p.configureProviderCalled then
    ({ diagnostics := [.configureNotCalled "ImportResourceState" r.typeName] }, p)
  else
    let p := { p with importResourceStateCalled := true,
                      importResourceStateRequest := some r }
    match p.importResourceStateFn with
    | some f => (f r, p)
    | none =>
      match p.importResourceStateResponse with
      | some resp =>
        match coerceImported p.getProviderSchema.resourceTypes
            resp.importedResources with
        | .error d =>
          ({ resp with diagnostics := resp.diagnostics ++ [d] }, p)
        | .ok coerced => ({ resp with importedResources := coerced }, p)
      | none => ({}, p)

/-- `MockProvider.ReadDataSource`: enforces the configure gate before
recording the call, then dispatches to the override function, the canned
response, or an empty response. -/
def MockProvider.ReadDataSource (p : MockProvider) (r : ReadDataSourceRequest) :
    ReadDataSourceResponse × MockProvider :=
  if !p.configureProviderCalled then
    ({ diagnostics := [.configureNotCalled "ReadDataSource" r.typeName] }, p)
  else
    let p := { p with readDataSourceCalled := true,
                      readDataSourceRequest := some r }
    match p.readDataSourceFn with
    | some f => (f r, p)
    | none =>
      match p.readDataSourceResponse with
      | some resp => (resp, p)
      | none => ({}, p)

/-- `MockProvider.PlanAction`: enforces the configure gate before
recording the call, then dispatches to the override function, the canned
response, or an empty response. -/
def MockProvider.PlanAction (p : MockProvider) (r : PlanActionRequest) :
    PlanActionResponse × MockProvider :=
  if !p.configureProviderCalled then
    ({ diagnostics := [.configureNotCalled "PlanAction" r.typeName] }, p)
  else
    let p := { p with planActionCalled := true, planActionRequest := some r }
    match p.planActionFn with
    | some f => (f r, p)
    | none =>
      match p.planActionResponse with
      | some resp => (resp, p)
      | none => ({}, p)

/-- `MockProvider.ApplyAction`: enforces the configure gate before
recording the call, then dispatches to the override function, the canned
response, or an empty response. -/
def MockProvider.ApplyAction (p : MockProvider) (r : ApplyActionRequest) :
    ApplyActionResponse × MockProvider :=
  if !p.configureProviderCalled then
    ({ diagnostics := [.configureNotCalled "ApplyAction" r.typeName] }, p)
  else
    let p := { p with applyActionCalled := true, applyActionRequest := some r }
    match p.applyActionFn with
    | some f => (f r, p)
    | none =>
      match p.applyActionResponse with
      | some resp => (resp, p)
      | none => ({}, p)

/-- The type-appropriate zero value the default apply substitutes for an
unknown: empty string for string type, zero for number, false for bool,
empty container for map and list types, and null for any other type. -/
def zeroValue : Ty → Value
  | .string => .str ""
  | .number => .num 0
  | .bool => .bool false
  | .map e => .map e .nil
  | .list e => .list e .nil
  | t => .null t

/-- A provider on which `ConfigureProvider` has never been called. -/
def unconfiguredProvider : MockProvider := {}

/-- A schema block with a single optional+computed string attribute
`name`. -/
def nameBlock : Block :=
  .mk [("name", { type := .string, optional := true, computed := true })] .nil

/-- A configured provider registering `nameBlock` for type
`"test_thing"`. -/
def nameProvider : MockProvider :=
  { configureProviderCalled := true,
    getProviderSchemaResponse :=
      some { resourceTypes := [("test_thing", { block := nameBlock })] } }

/-- A schema block with a single computed-only string attribute `id`. -/
def idBlock : Block :=
  .mk [("id", { type := .string, computed := true })] .nil

/-- A configured provider registering `idBlock` for type
`"test_thing"`. -/
def idProvider : MockProvider :=
  { configureProviderCalled := true,
    getProviderSchemaResponse :=
      some { resourceTypes := [("test_thing", { block := idBlock })] } }

/-- A schema block with a single optional map-of-string attribute
`tags`. -/
def tagsBlock : Block :=
  .mk [("tags", { type := .map .string, optional := true })] .nil

/-- A configured provider registering `tagsBlock` for type
`"test_thing"`. -/
def tagsProvider : MockProvider :=
  { configureProviderCalled := true,
    getProviderSchemaResponse :=
      some { resourceTypes := [("test_thing", { block := tagsBlock })] } }

/-- A configured provider with no registered resource schemas. -/
def bareProvider : MockProvider := { configureProviderCalled := true }

/-- Plan request of spec scenario 1: prior `{name: "x"}`, proposed
`{name: "x"}`, config `{name: null}`. -/
def setToUnsetPlanRequest : PlanResourceChangeRequest :=
  { typeName := "test_thing",
    priorState := .object (.cons "name" (.str "x") .nil),
    proposedNewState := .object (.cons "name" (.str "x") .nil),
    config := .object (.cons "name" (.null .string) .nil),
    priorPrivate := [1, 2, 3] }

/-- Plan request whose prior state sets `name` but whose proposed state
and config are both null for it. -/
def priorSetProposedNullPlanRequest : PlanResourceChangeRequest :=
  { typeName := "test_thing",
    priorState := .object (.cons "name" (.str "x") .nil),
    proposedNewState := .object (.cons "name" (.null .string) .nil),
    config := .object (.cons "name" (.null .string) .nil),
    priorPrivate := [] }

/-- Upgrade request of spec scenario 6: flatmap
`{"tags.%": "1", "tags.env": "prod"}`. -/
def tagsFlatmapUpgradeRequest : UpgradeResourceStateRequest :=
  { typeName := "test_thing",
    rawStateFlatmap := some [("tags.%", "1"), ("tags.env", "prod")] }

/-- Upgrade request with a corrupt flatmap element count. -/
def corruptTagsUpgradeRequest : UpgradeResourceStateRequest :=
  { typeName := "test_thing",
    rawStateFlatmap := some [("tags.%", "2"), ("tags.env", "prod")] }

/-- Upgrade request carrying JSON raw state `{"tags": {"env": "prod"}}`. -/
def tagsJsonUpgradeRequest : UpgradeResourceStateRequest :=
  { typeName := "test_thing",
    rawStateJSON :=
      some (.obj (.cons "tags" (.obj (.cons "env" (.str "prod") .nil)) .nil)) }

/-- Apply request of spec scenario 2: planned state `{id: unknown}`. -/
def applyUnknownIdRequest : ApplyResourceChangeRequest :=
  { typeName := "test_thing",
    priorState := .null (idBlock.impliedType),
    plannedState := .object (.cons "id" (.unknown .string) .nil),
    config := .object (.cons "id" (.null .string) .nil),
    plannedPrivate := [7] }

/-- Validation request of spec scenario 5: an unregistered type name. -/
def unknownTypeValidateRequest : ValidateResourceConfigRequest :=
  { typeName := "unknown_type", config := .object .nil }

/-- Validation request whose config value does not conform to the
registered schema's implied type (`name` holds a bool, not a string). -/
def mistypedValidateRequest : ValidateResourceConfigRequest :=
  { typeName := "test_thing",
    config := .object (.cons "name" (.bool true) .nil) }

/-- Destroy plan request of spec scenario 4 (null proposed state,
private blob `"abc"`). -/
def destroyPlanRequest : PlanResourceChangeRequest :=
  { typeName := "test_thing",
    priorState := .object (.cons "name" (.str "x") .nil),
    proposedNewState := .null (nameBlock.impliedType),
    config := .null (nameBlock.impliedType),
    priorPrivate := [97, 98, 99] }

/-- Destroy plan request naming a type with no registered schema. -/
def ghostDestroyPlanRequest : PlanResourceChangeRequest :=
  { typeName := "ghost_type",
    priorState := .null .string,
    proposedNewState := .null .string,
    config := .null .string,
    priorPrivate := [5] }

/-- Read request naming a type with no registered schema (the default
read needs none). -/
def identityReadRequest : ReadResourceRequest :=
  { typeName := "ghost_type",
    priorState := .object (.cons "anything" (.num 42) .nil),
    priv := [9, 9] }

/-- C1 (ordering gate): for every instance-level operation —
`ReadResource`, `PlanResourceChange`, `ApplyResourceChange`,
`ImportResourceState`, `ReadDataSource`, `PlanAction`, `ApplyAction` —
and every provider instance, invoking the operation before
`ConfigureProvider` has been called returns a response whose diagnostics
are non-empty and contain the "Configure not called" error naming the
violating operation and the resource type name; after `ConfigureProvider`
has been called (the call sets the gate flag, final conjunct), the
operation's own behavior (no override function, no canned response
injecting diagnostics) yields no such ordering-violation error. -/
theorem instance_ops_configure_gate (p : MockProvider) :
    (p.configureProviderCalled = false →
      (∀ r : ReadResourceRequest,
        Diag.configureNotCalled "ReadResource" r.typeName
            ∈ (p.ReadResource r).1.diagnostics
          ∧ (p.ReadResource r).1.diagnostics ≠ [])
      ∧ (∀ r : PlanResourceChangeRequest,
        Diag.configureNotCalled "PlanResourceChange" r.typeName
            ∈ (p.PlanResourceChange r).1.diagnostics
          ∧ (p.PlanResourceChange r).1.diagnostics ≠ [])
      ∧ (∀ r : ApplyResourceChangeRequest,
        Diag.configureNotCalled "ApplyResourceChange" r.typeName
            ∈ (p.ApplyResourceChange r).1.diagnostics
          ∧ (p.ApplyResourceChange r).1.diagnostics ≠ [])
      ∧ (∀ r : ImportResourceStateRequest,
        Diag.configureNotCalled "ImportResourceState" r.typeName
            ∈ (p.ImportResourceState r).1.diagnostics
          ∧ (p.ImportResourceState r).1.diagnostics ≠ [])
      ∧ (∀ r : ReadDataSourceRequest,
        Diag.configureNotCalled "ReadDataSource" r.typeName
            ∈ (p.ReadDataSource r).1.diagnostics
          ∧ (p.ReadDataSource r).1.diagnostics ≠ [])
      ∧ (∀ r : PlanActionRequest,
        Diag.configureNotCalled "PlanAction" r.typeName
            ∈ (p.PlanAction r).1.diagnostics
          ∧ (p.PlanAction r).1.diagnostics ≠ [])
      ∧ (∀ r : ApplyActionRequest,
        Diag.configureNotCalled "ApplyAction" r.typeName
            ∈ (p.ApplyAction r).1.diagnostics
          ∧ (p.ApplyAction r).1.diagnostics ≠ []))
    ∧ (p.configureProviderCalled = true →
      (∀ r : ReadResourceRequest, p.readResourceFn = none →
        p.readResourceResponse = none →
        hasConfigureNotCalled (p.ReadResource r).1.diagnostics = false)
      ∧ (∀ r : PlanResourceChangeRequest, p.planResourceChangeFn = none →
        p.planResourceChangeResponse = none →
        hasConfigureNotCalled (p.PlanResourceChange r).1.diagnostics = false)
      ∧ (∀ r : ApplyResourceChangeRequest, p.applyResourceChangeFn = none →
        p.applyResourceChangeResponse = none →
        hasConfigureNotCalled (p.ApplyResourceChange r).1.diagnostics = false)
      ∧ (∀ r : ImportResourceStateRequest, p.importResourceStateFn = none →
        p.importResourceStateResponse = none →
        hasConfigureNotCalled (p.ImportResourceState r).1.diagnostics = false)
      ∧ (∀ r : ReadDataSourceRequest, p.readDataSourceFn = none →
        p.readDataSourceResponse = none →
        hasConfigureNotCalled (p.ReadDataSource r).1.diagnostics = false)
      ∧ (∀ r : PlanActionRequest, p.planActionFn = none →
        p.planActionResponse = none →
        hasConfigureNotCalled (p.PlanAction r).1.diagnostics = false)
      ∧ (∀ r : ApplyActionRequest, p.applyActionFn = none →
        p.applyActionResponse = none →
        hasConfigureNotCalled (p.ApplyAction r).1.diagnostics = false))
    ∧ (∀ c : ConfigureProviderRequest,
        ((p.ConfigureProvider c).2).configureProviderCalled = true) := by
  refine ⟨fun h => ⟨?_, ?_, ?_, ?_, ?_, ?_, ?_⟩,
          fun h => ⟨?_, ?_, ?_, ?_, ?_, ?_, ?_⟩, ?_⟩
  · intro r
    simp [MockProvider.ReadResource, h]
  · intro r
    simp [MockProvider.PlanResourceChange, h]
  · intro r
    simp [MockProvider.ApplyResourceChange, h]
  · intro r
    simp [MockProvider.ImportResourceState, h]
  · intro r
    simp [MockProvider.ReadDataSource, h]
  · intro r
    simp [MockProvider.PlanAction, h]
  · intro r
    simp [MockProvider.ApplyAction, h]
  · intro r hfn hresp
    simp [MockProvider.ReadResource, h, hfn, hresp, hasConfigureNotCalled]
  · intro r hfn hresp
    simp only [MockProvider.PlanResourceChange, h, hfn, hresp]
    split
    · next hcond => simp at hcond
    · split
      · simp [hasConfigureNotCalled]
      · split <;> simp [hasConfigureNotCalled]
  · intro r hfn hresp
    simp only [MockProvider.ApplyResourceChange, h, hfn, hresp]
    split
    · next hcond => simp at hcond
    · split <;> simp [hasConfigureNotCalled]
  · intro r hfn hresp
    simp [MockProvider.ImportResourceState, h, hfn, hresp, hasConfigureNotCalled]
  · intro r hfn hresp
    simp [MockProvider.ReadDataSource, h, hfn, hresp, hasConfigureNotCalled]
  · intro r hfn hresp
    simp [MockProvider.PlanAction, h, hfn, hresp, hasConfigureNotCalled]
  · intro r hfn hresp
    simp [MockProvider.ApplyAction, h, hfn, hresp, hasConfigureNotCalled]
  · intro c
    simp only [MockProvider.ConfigureProvider]
    cases p.configureProviderFn <;> cases p.configureProviderResponse <;> simp

/-- Witness for C1 at concrete inputs: an unconfigured provider answers
`ReadResource` with the ordering-violation diagnostic, and a configured
provider's default `ReadResource` produces none. -/
theorem instance_ops_configure_gate_witness :
    (Diag.configureNotCalled "ReadResource" "test_thing"
        ∈ (unconfiguredProvider.ReadResource
            { typeName := "test_thing", priorState := .null .string }).1.diagnostics)
    ∧ hasConfigureNotCalled
        ((bareProvider.ReadResource
            { typeName := "test_thing", priorState := .null .string }).1.diagnostics)
        = false := by
  exact ⟨(((instance_ops_configure_gate unconfiguredProvider).1 rfl).1 _).1,
         ((instance_ops_configure_gate bareProvider).2.1 rfl).1 _ rfl rfl⟩

/-- C2 (counterexample): the claim that `UpgradeResourceState` is
exempt from the configured-gate is false on the code: on an unconfigured
provider it returns exactly the "Configure not called before
UpgradeResourceState" ordering-violation diagnostic. -/
theorem upgradeResourceState_gate_cex :
    (unconfiguredProvider.UpgradeResourceState tagsFlatmapUpgradeRequest).1.diagnostics
        = [Diag.configureNotCalled "UpgradeResourceState" "test_thing"]
    ∧ hasConfigureNotCalled
        (unconfiguredProvider.UpgradeResourceState
          tagsFlatmapUpgradeRequest).1.diagnostics = true :=
  ⟨rfl, rfl⟩

/-- C2 (amended): `UpgradeResourceState` is NOT exempt from the
configured-gate: for every provider instance and request, calling it
before `ConfigureProvider` has been called returns exactly the
"Configure not called" ordering-violation diagnostic naming the operation
and the type name, with no upgraded state and the provider's call-log
left unchanged. -/
theorem upgradeResourceState_gated (p : MockProvider)
    (r : UpgradeResourceStateRequest)
    (h : p.configureProviderCalled = false) :
    (p.UpgradeResourceState r).1
        = { upgradedState := none,
            diagnostics := [Diag.configureNotCalled "UpgradeResourceState" r.typeName] }
    ∧ (p.UpgradeResourceState r).2 = p := by
  constructor <;> simp [MockProvider.UpgradeResourceState, h]

/-- Witness for the amended C2 at a concrete input. -/
theorem upgradeResourceState_gated_witness :
    (unconfiguredProvider.UpgradeResourceState tagsJsonUpgradeRequest).1
      = { upgradedState := none,
          diagnostics := [Diag.configureNotCalled "UpgradeResourceState" "test_thing"] } :=
  (upgradeResourceState_gated unconfiguredProvider tagsJsonUpgradeRequest rfl).1

/-- C3 (destroy plan identity): under the default plan algorithm
(provider configured, no override function, no canned response),
`PlanResourceChange` with a null `proposedNewState` returns the null
planned state and carries the prior private blob through unchanged, with
empty diagnostics, for every resource type, schema and request. -/
theorem planResourceChange_destroy (p : MockProvider)
    (r : PlanResourceChangeRequest)
    (hconf : p.configureProviderCalled = true)
    (hfn : p.planResourceChangeFn = none)
    (hresp : p.planResourceChangeResponse = none)
    (hnull : r.proposedNewState.isNull = true) :
    (p.PlanResourceChange r).1
      = { plannedState := some r.proposedNewState,
          plannedPrivate := r.priorPrivate, diagnostics := [] } := by
  simp [MockProvider.PlanResourceChange, hconf, hfn, hresp, hnull]

/-- Witness for C3 at spec scenario 4: null proposed state and private
blob `"abc"` come back as a null plan carrying `"abc"`. -/
theorem planResourceChange_destroy_witness :
    (nameProvider.PlanResourceChange destroyPlanRequest).1
      = { plannedState := some (.null (nameBlock.impliedType)),
          plannedPrivate := [97, 98, 99], diagnostics := [] } :=
  planResourceChange_destroy nameProvider destroyPlanRequest rfl rfl rfl rfl

/-- C9 (destroy plan needs no schema): under the default plan
algorithm, a destroy plan returns the null plan with empty diagnostics
even when the request's type name has no registered resource schema (the
null check precedes the schema lookup), and conversely the
"no schema found" diagnostic can only arise on a non-destroy plan. -/
theorem planResourceChange_destroy_skips_schema (p : MockProvider)
    (r : PlanResourceChangeRequest)
    (hconf : p.configureProviderCalled = true)
    (hfn : p.planResourceChangeFn = none)
    (hresp : p.planResourceChangeResponse = none) :
    (r.proposedNewState.isNull = true →
      p.getProviderSchema.resourceTypes.lookup r.typeName = none →
      (p.PlanResourceChange r).1
        = { plannedState := some r.proposedNewState,
            plannedPrivate := r.priorPrivate, diagnostics := [] })
    ∧ (Diag.noSchema r.typeName ∈ (p.PlanResourceChange r).1.diagnostics →
        r.proposedNewState.isNull = false) := by
  constructor
  · intro hnull _
    simp [MockProvider.PlanResourceChange, hconf, hfn, hresp, hnull]
  · intro hmem
    cases hn : r.proposedNewState.isNull
    · rfl
    · exfalso
      have hempty : (p.PlanResourceChange r).1.diagnostics = [] := by
        simp [MockProvider.PlanResourceChange, hconf, hfn, hresp, hn]
      rw [hempty] at hmem
      simp at hmem

/-- Witness for C9: a configured provider with no schemas at all answers
a destroy plan for an unregistered type with the null plan and empty
diagnostics. -/
theorem planResourceChange_destroy_skips_schema_witness :
    (bareProvider.PlanResourceChange ghostDestroyPlanRequest).1
      = { plannedState := some (.null .string),
          plannedPrivate := [5], diagnostics := [] } :=
  (planResourceChange_destroy_skips_schema bareProvider ghostDestroyPlanRequest
    rfl rfl rfl).1 rfl rfl

/-- C10 (default read is an identity refresh): after
`ConfigureProvider`, with no `ReadResourceFn` override and no canned
`ReadResourceResponse`, `ReadResource` answers with exactly the request's
prior state and private blob and empty diagnostics — no schema coercion
is applied (the response is the prior state verbatim, whether or not a
schema is registered for the type). -/
theorem readResource_default_identity (p : MockProvider)
    (r : ReadResourceRequest)
    (hconf : p.configureProviderCalled = true)
    (hfn : p.readResourceFn = none)
    (hresp : p.readResourceResponse = none) :
    (p.ReadResource r).1
      = { newState := some r.priorState, priv := r.priv, diagnostics := [] } := by
  simp [MockProvider.ReadResource, hconf, hfn, hresp]

/-- Witness for C10: the default read echoes a prior state that does not
even match any registered schema, untouched. -/
theorem readResource_default_identity_witness :
    (bareProvider.ReadResource identityReadRequest).1
      = { newState := some (.object (.cons "anything" (.num 42) .nil)),
          priv := [9, 9], diagnostics := [] } :=
  readResource_default_identity bareProvider identityReadRequest rfl rfl rfl

mutual

/-- The default apply transform leaves no unknown value anywhere. -/
theorem transform_applyDefault_noUnknown :
    (p : Path) → (v : Value) →
      (Value.transform applyDefaultVisitor p v).hasUnknown = false
  | _, .null _ => rfl
  | _, .unknown t => by cases t <;> rfl
  | _, .str _ => rfl
  | _, .num _ => rfl
  | _, .bool _ => rfl
  | p, .list _ els => transformIdx_applyDefault_noUnknown p 0 els
  | p, .map _ els => transformKeyed_applyDefault_noUnknown p els
  | p, .set _ els => transformSet_applyDefault_noUnknown p els
  | p, .object fs => transformAttrs_applyDefault_noUnknown p fs

/-- The default apply transform leaves no unknown in list elements. -/
theorem transformIdx_applyDefault_noUnknown :
    (p : Path) → (i : Nat) → (els : ValueSeq) →
      (ValueSeq.transformIdx applyDefaultVisitor p i els).hasUnknown = false
  | _, _, .nil => rfl
  | p, i, .cons v rest => by
    show ((Value.transform applyDefaultVisitor _ v).hasUnknown
        || (ValueSeq.transformIdx applyDefaultVisitor p (i + 1) rest).hasUnknown) = false
    rw [transform_applyDefault_noUnknown _ v,
      transformIdx_applyDefault_noUnknown p (i + 1) rest]
    rfl

/-- The default apply transform leaves no unknown in map elements. -/
theorem transformKeyed_applyDefault_noUnknown :
    (p : Path) → (fs : FieldSeq) →
      (FieldSeq.transformKeyed applyDefaultVisitor p fs).hasUnknown = false
  | _, .nil => rfl
  | p, .cons _ v rest => by
    show ((Value.transform applyDefaultVisitor _ v).hasUnknown
        || (FieldSeq.transformKeyed applyDefaultVisitor p rest).hasUnknown) = false
    rw [transform_applyDefault_noUnknown _ v,
      transformKeyed_applyDefault_noUnknown p rest]
    rfl

/-- The default apply transform leaves no unknown in set elements. -/
theorem transformSet_applyDefault_noUnknown :
    (p : Path) → (els : ValueSeq) →
      (ValueSeq.transformSet applyDefaultVisitor p els).hasUnknown = false
  | _, .nil => rfl
  | p, .cons v rest => by
    show ((Value.transform applyDefaultVisitor _ v).hasUnknown
        || (ValueSeq.transformSet applyDefaultVisitor p rest).hasUnknown) = false
    rw [transform_applyDefault_noUnknown _ v,
      transformSet_applyDefault_noUnknown p rest]
    rfl

/-- The default apply transform leaves no unknown in object fields. -/
theorem transformAttrs_applyDefault_noUnknown :
    (p : Path) → (fs : FieldSeq) →
      (FieldSeq.transformAttrs applyDefaultVisitor p fs).hasUnknown = false
  | _, .nil => rfl
  | p, .cons _ v rest => by
    show ((Value.transform applyDefaultVisitor _ v).hasUnknown
        || (FieldSeq.transformAttrs applyDefaultVisitor p rest).hasUnknown) = false
    rw [transform_applyDefault_noUnknown _ v,
      transformAttrs_applyDefault_noUnknown p rest]
    rfl

end

/-- C4 (apply totality): for every non-destroy `ApplyResourceChange`
handled by the default algorithm (configured, no override function, no
canned response), the returned new state is the planned state with every
unknown replaced by the type-appropriate zero value — empty string for
string, zero for number, false for bool, empty container for map and
list, null for any other type — and therefore contains no unknown value
anywhere in its structure. -/
theorem applyResourceChange_default_total (p : MockProvider)
    (r : ApplyResourceChangeRequest)
    (hconf : p.configureProviderCalled = true)
    (hfn : p.applyResourceChangeFn = none)
    (hresp : p.applyResourceChangeResponse = none)
    (hnotnull : r.plannedState.isNull = false) :
    (p.ApplyResourceChange r).1
      = { newState := some (Value.transform applyDefaultVisitor [] r.plannedState),
          priv := r.plannedPrivate, diagnostics := [] }
    ∧ (∀ v, (p.ApplyResourceChange r).1.newState = some v → v.hasUnknown = false)
    ∧ (∀ q t, applyDefaultVisitor q (.unknown t) = zeroValue t) := by
  have hmain : (p.ApplyResourceChange r).1
      = { newState := some (Value.transform applyDefaultVisitor [] r.plannedState),
          priv := r.plannedPrivate, diagnostics := [] } := by
    simp [MockProvider.ApplyResourceChange, hconf, hfn, hresp, hnotnull]
  refine ⟨hmain, ?_, ?_⟩
  · intro v hv
    rw [hmain] at hv
    simp only [Option.some.injEq] at hv
    exact hv ▸ transform_applyDefault_noUnknown [] r.plannedState
  · intro q t
    cases t <;> rfl

/-- Witness for C4 at spec scenario 2: applying the plan `{id: unknown}`
yields `{id: ""}`, which contains no unknown. -/
theorem applyResourceChange_default_total_witness :
    (idProvider.ApplyResourceChange applyUnknownIdRequest).1.newState
        = some (.object (.cons "id" (.str "") .nil))
    ∧ Value.hasUnknown (.object (.cons "id" (.str "") .nil)) = false := by
  have h := applyResourceChange_default_total idProvider applyUnknownIdRequest
    rfl rfl rfl rfl
  exact ⟨(congrArg ApplyResourceChangeResponse.newState h.1).trans rfl, rfl⟩

/-- C5 (counterexample): the claim keys the optional+computed rule on
the prior state; the code keys it on the value in `proposedNewState`.
Here `name` is optional+computed, set (`"x"`) in prior state and null in
config — the claim demands it become unknown in the planned state — yet
because it is null in `proposedNewState` the default transform leaves it
null: the planned state contains no unknown anywhere. -/
theorem planResourceChange_prior_set_cex :
    nameBlock.attributeByPath [.getAttr "name"]
        = some { type := .string, optional := true, computed := true }
    ∧ Path.apply [.getAttr "name"] priorSetProposedNullPlanRequest.priorState
        = .ok (.str "x")
    ∧ Path.apply [.getAttr "name"] priorSetProposedNullPlanRequest.config
        = .ok (.null .string)
    ∧ (nameProvider.PlanResourceChange priorSetProposedNullPlanRequest).1.plannedState
        = some (.object (.cons "name" (.null .string) .nil))
    ∧ Value.hasUnknown (.object (.cons "name" (.null .string) .nil)) = false :=
  ⟨rfl, rfl, rfl, rfl, rfl⟩

/-- C5 (amended): the default plan transform applies the visitor at
every path of `proposedNewState`; at a declared attribute path whose
config value can be fetched, a computed-only attribute whose value in
`proposedNewState` is null becomes unknown, and an optional+computed
attribute whose value in `proposedNewState` is non-null while the config
value is null becomes unknown; every other known attribute value, every
value whose config path does not resolve, every unknown value and every
intermediate container path is passed through unchanged. -/
theorem planResourceChange_default_transform (p : MockProvider)
    (r : PlanResourceChangeRequest) (schema : Schema)
    (hconf : p.configureProviderCalled = true)
    (hfn : p.planResourceChangeFn = none)
    (hresp : p.planResourceChangeResponse = none)
    (hnotnull : r.proposedNewState.isNull = false)
    (hschema : p.getProviderSchema.resourceTypes.lookup r.typeName = some schema) :
    (p.PlanResourceChange r).1
      = { plannedState := some (Value.transform
            (planDefaultVisitor schema.block r.config) [] r.proposedNewState),
          plannedPrivate := r.priorPrivate, diagnostics := [] }
    ∧ (∀ path v, v.isKnown = false →
        planDefaultVisitor schema.block r.config path v = v)
    ∧ (∀ path v, v.isKnown = true →
        schema.block.attributeByPath path = none →
        planDefaultVisitor schema.block r.config path v = v)
    ∧ (∀ path v attr e, v.isKnown = true →
        schema.block.attributeByPath path = some attr →
        Path.apply path r.config = .error e →
        planDefaultVisitor schema.block r.config path v = v)
    ∧ (∀ path v attr cv, v.isKnown = true →
        schema.block.attributeByPath path = some attr →
        Path.apply path r.config = .ok cv →
        ((attr.computed = true → attr.optional = false → v.isNull = true →
            planDefaultVisitor schema.block r.config path v = .unknown v.ty)
          ∧ (attr.computed = true → attr.optional = true → v.isNull = false →
              cv.isNull = true →
              planDefaultVisitor schema.block r.config path v = .unknown v.ty)
          ∧ (attr.computed = false →
              planDefaultVisitor schema.block r.config path v = v)
          ∧ (attr.optional = false → v.isNull = false →
              planDefaultVisitor schema.block r.config path v = v)
          ∧ (attr.optional = true → v.isNull = true →
              planDefaultVisitor schema.block r.config path v = v)
          ∧ (attr.optional = true → cv.isNull = false →
              planDefaultVisitor schema.block r.config path v = v))) := by
  refine ⟨?_, ?_, ?_, ?_, ?_⟩
  · simp [MockProvider.PlanResourceChange, MockProvider.getProviderSchema,
      hconf, hfn, hresp, hnotnull]
    simp only [MockProvider.getProviderSchema] at hschema
    simp [hschema]
  · intro path v hv
    simp [planDefaultVisitor, hv]
  · intro path v hv hattr
    simp [planDefaultVisitor, hv, hattr]
  · intro path v attr e hv hattr happ
    simp [planDefaultVisitor, hv, hattr, happ]
  · intro path v attr cv hv hattr happ
    refine ⟨?_, ?_, ?_, ?_, ?_, ?_⟩
    · intro hc ho hn
      simp [planDefaultVisitor, hv, hattr, happ, hc, ho, hn]
    · intro hc ho hn hcv
      simp [planDefaultVisitor, hv, hattr, happ, hc, ho, hn, hcv]
    · intro hc
      simp [planDefaultVisitor, hv, hattr, happ, hc]
    · intro ho hn
      simp [planDefaultVisitor, hv, hattr, happ, ho, hn]
    · intro ho hn
      simp [planDefaultVisitor, hv, hattr, happ, ho, hn]
    · intro ho hcv
      simp [planDefaultVisitor, hv, hattr, happ, ho, hcv]

/-- Witness for the amended C5 at spec scenario 1: an optional+computed
attribute proposed as `"x"` with a null config value is planned as
unknown, and the prior private blob is carried through. -/
theorem planResourceChange_default_transform_witness :
    (nameProvider.PlanResourceChange setToUnsetPlanRequest).1.plannedState
        = some (.object (.cons "name" (.unknown .string) .nil))
    ∧ (nameProvider.PlanResourceChange setToUnsetPlanRequest).1.plannedPrivate
        = [1, 2, 3] := by
  have h := planResourceChange_default_transform nameProvider setToUnsetPlanRequest
    { block := nameBlock } rfl rfl rfl rfl rfl
  exact ⟨(congrArg PlanResourceChangeResponse.plannedState h.1).trans rfl,
         (congrArg PlanResourceChangeResponse.plannedPrivate h.1).trans rfl⟩

/-- C6: `ValidateResourceConfig` with a type name that has no
registered resource schema returns exactly one diagnostic (the
"no schema found" error) — and, being a total function, cannot panic;
for a known type name it encodes (type-conformance checks) the config
against the resource schema's implied type and surfaces an encoding
failure as the response's diagnostic. -/
theorem validateResourceConfig_checks (p : MockProvider)
    (r : ValidateResourceConfigRequest) :
    (p.getProviderSchema.resourceTypes.lookup r.typeName = none →
      (p.ValidateResourceConfig r).1.diagnostics = [Diag.noSchema r.typeName])
    ∧ (∀ schema e,
        p.getProviderSchema.resourceTypes.lookup r.typeName = some schema →
        encodeCheck r.config schema.block.impliedType = .error e →
        (p.ValidateResourceConfig r).1.diagnostics = [Diag.err e]) := by
  constructor
  · intro h
    simp only [MockProvider.getProviderSchema] at h
    simp [MockProvider.ValidateResourceConfig, MockProvider.getProviderSchema, h]
  · intro schema e hs he
    simp only [MockProvider.getProviderSchema] at hs
    simp [MockProvider.ValidateResourceConfig, MockProvider.getProviderSchema,
      hs, he]

/-- Witness for C6 at spec scenario 5 (`"unknown_type"` yields exactly
the one missing-schema diagnostic) and at a type-conformance failure
(`name` holding a bool against a string attribute). -/
theorem validateResourceConfig_checks_witness :
    (bareProvider.ValidateResourceConfig unknownTypeValidateRequest).1.diagnostics
        = [Diag.noSchema "unknown_type"]
    ∧ (nameProvider.ValidateResourceConfig mistypedValidateRequest).1.diagnostics
        = [Diag.err "type mismatch in encoding"] :=
  ⟨(validateResourceConfig_checks bareProvider unknownTypeValidateRequest).1 rfl,
   (validateResourceConfig_checks nameProvider mistypedValidateRequest).2
     { block := nameBlock } "type mismatch in encoding" rfl rfl⟩

/-- C7: the default `UpgradeResourceState` (configured, registered
schema, no override, no canned response) decodes a present flatmap raw
state against the current schema's implied type, decodes a present
(non-empty) JSON raw state by parsing it against the implied type, and
reports a decode failure of either path as an error diagnostic in the
response rather than crashing. -/
theorem upgradeResourceState_default_decodes (p : MockProvider)
    (r : UpgradeResourceStateRequest) (schema : Schema)
    (hconf : p.configureProviderCalled = true)
    (hfn : p.upgradeResourceStateFn = none)
    (hresp : p.upgradeResourceStateResponse = none)
    (hschema : p.getProviderSchema.resourceTypes.lookup r.typeName = some schema) :
    (∀ m, r.rawStateFlatmap = some m →
      (∀ v, flatmapDecode m schema.block.impliedType = .ok v →
        (p.UpgradeResourceState r).1
          = { upgradedState := some v, diagnostics := [] })
      ∧ (∀ e, flatmapDecode m schema.block.impliedType = .error e →
        (p.UpgradeResourceState r).1
          = { upgradedState := none, diagnostics := [Diag.err e] }))
    ∧ (r.rawStateFlatmap = none → ∀ j, r.rawStateJSON = some j →
      (∀ v, jsonDecode j schema.block.impliedType = .ok v →
        (p.UpgradeResourceState r).1
          = { upgradedState := some v, diagnostics := [] })
      ∧ (∀ e, jsonDecode j schema.block.impliedType = .error e →
        (p.UpgradeResourceState r).1
          = { upgradedState := none, diagnostics := [Diag.err e] })) := by
  have hs := hschema
  simp only [MockProvider.getProviderSchema] at hs
  constructor
  · intro m hm
    constructor
    · intro v hv
      simp [MockProvider.UpgradeResourceState, MockProvider.getProviderSchema,
        hconf, hfn, hresp, hs, hm, hv]
    · intro e he
      simp [MockProvider.UpgradeResourceState, MockProvider.getProviderSchema,
        hconf, hfn, hresp, hs, hm, he]
  · intro hm j hj
    constructor
    · intro v hv
      simp [MockProvider.UpgradeResourceState, MockProvider.getProviderSchema,
        hconf, hfn, hresp, hs, hm, hj, hv]
    · intro e he
      simp [MockProvider.UpgradeResourceState, MockProvider.getProviderSchema,
        hconf, hfn, hresp, hs, hm, hj, he]

/-- Witness for C7: spec scenario 6 (flatmap
`{"tags.%": "1", "tags.env": "prod"}` decodes to
`{tags: {"env": "prod"}}`), a corrupt flatmap count surfacing as a
diagnostic, and the JSON path decoding `{"tags": {"env": "prod"}}`. -/
theorem upgradeResourceState_default_decodes_witness :
    (tagsProvider.UpgradeResourceState tagsFlatmapUpgradeRequest).1
        = { upgradedState := some (.object (.cons "tags"
              (.map .string (.cons "env" (.str "prod") .nil)) .nil)),
            diagnostics := [] }
    ∧ (tagsProvider.UpgradeResourceState corruptTagsUpgradeRequest).1
        = { upgradedState := none,
            diagnostics := [Diag.err "corrupt count for tags"] }
    ∧ (tagsProvider.UpgradeResourceState tagsJsonUpgradeRequest).1
        = { upgradedState := some (.object (.cons "tags"
              (.map .string (.cons "env" (.str "prod") .nil)) .nil)),
            diagnostics := [] } := by
  refine ⟨?_, ?_, ?_⟩
  · exact ((upgradeResourceState_default_decodes tagsProvider
      tagsFlatmapUpgradeRequest { block := tagsBlock } rfl rfl rfl rfl).1
        _ rfl).1 _ rfl
  · exact ((upgradeResourceState_default_decodes tagsProvider
      corruptTagsUpgradeRequest { block := tagsBlock } rfl rfl rfl rfl).1
        _ rfl).2 _ rfl
  · exact ((upgradeResourceState_default_decodes tagsProvider
      tagsJsonUpgradeRequest { block := tagsBlock } rfl rfl rfl rfl).2
        rfl _ rfl).1 _ rfl

end ProviderMock
